import Mathlib

/-!
Verification of the gRPC service host in `grpc_core/servers/manager.py`
(class `Server`) against its specification.

The embedding models:
* the class-level `_instance` slot and allocation (`ProcState`),
* a `Server` instance (`ServerObj`) whose attributes appear as the
  constructor body assigns them (`SERVER_ADDRESS`, `server`, and the
  `initialized` flag, here called `inited`),
* the external `grpc.aio` server at its boundary (`AioServer`):
  interceptor chain, bound addresses, appended service handlers,
  reflection name sets, started flag, and in-flight calls,
* an event trace (`Event`) recording the order of side effects, so that
  ordering properties (reflection vs. registration vs. listener start)
  are statable.

Python exceptions are modelled by returning an `Option String` error
alongside the (possibly partially mutated) object, matching Python's
in-place attribute mutation semantics.
-/

namespace GrpcManager

/-- Configuration values read from `settings` in `manager.py`. -/
structure Settings where
  GRPC_HOST_LOCAL : String
  GRPC_PORT : String
  SECRET_KEY : String
deriving DecidableEq

/-- `f"{settings.GRPC_HOST_LOCAL}:{settings.GRPC_PORT}"` (manager.py line 112). -/
def serverAddress (st : Settings) : String :=
  st.GRPC_HOST_LOCAL ++ ":" ++ st.GRPC_PORT

/-- Modelled from the spec: the proto descriptor files (`order.proto` etc.)
are not part of `src/`; the fully qualified service name of `OrderService`
taken from `order_pb2.DESCRIPTOR` is an opaque identifier. -/
def orderServiceFullName : String := "order.OrderService"

/-- Modelled from the spec: fully qualified name of `EchoService` from
`echo_pb2.DESCRIPTOR` (proto files not in `src/`). -/
def echoServiceFullName : String := "echo.EchoService"

/-- Fully qualified name of the standard gRPC health service, from
`health_pb2.DESCRIPTOR.services_by_name["Health"]`. -/
def healthServiceFullName : String := "grpc.health.v1.Health"

/-- Modelled from the spec: fully qualified name of
`CheckStatusOrderService` from `check_pb2.DESCRIPTOR` (proto files not in
`src/`). -/
def checkServiceFullName : String := "check.CheckStatusOrderService"

/-- `reflection.SERVICE_NAME`: the reflection service's own full name. -/
def reflectionServiceName : String := "grpc.reflection.v1alpha.ServerReflection"

/-- `AuthInterceptor(settings.SECRET_KEY)`: an interceptor holding the
configured shared secret (constructed in manager.py line 116). -/
structure AuthInterceptor where
  secret : String
deriving DecidableEq

/-- The `grace` argument of `grpc.aio.Server.stop`.  The source passes the
Python value `False` (manager.py line 174); `None` and nonnegative second
counts are the other values the library accepts. -/
inductive PyGrace where
  | noneVal
  | falseVal
  | seconds (n : Nat)
deriving DecidableEq

/-- Length of the grace period a `grace` argument denotes.  Per the
`grpc.aio` contract, `None` aborts in-flight RPCs immediately, and `False`
is numerically zero, so both denote a zero-length grace period. -/
def PyGrace.periodSeconds : PyGrace → Nat
  | .noneVal => 0
  | .falseVal => 0
  | .seconds n => n

/-- Observable side effects of the host, in program order. -/
inductive Event where
  /-- Jaeger exporter, span processor, tracer provider and the two gRPC
  instrumentors (manager.py lines 80-110). -/
  | tracingSetup
  /-- `aio.server(...)` construction (line 113). -/
  | createServer
  /-- `self.server.add_insecure_port(self.SERVER_ADDRESS)` (line 119). -/
  | bindPort (addr : String)
  /-- `reflection.enable_server_reflection(SERVICE_NAMES, self.server)`
  (line 132). -/
  | enableReflection (names : List String)
  /-- `await Order.create_table(if_not_exists=True)` (line 160). -/
  | ensureStore
  /-- one `add_XServicer_to_server(..., self.server)` call (lines 142-151). -/
  | addService (name : String)
  /-- `await self.server.start()` (line 162). -/
  | startListener
  /-- `logger.info(f"*** ... {self.SERVER_ADDRESS} ***")` (line 163). -/
  | logAddress (addr : String)
  /-- `await self.server.wait_for_termination()` (line 164). -/
  | waitForTermination
  /-- `logger.info("*** ... ***")` in `stop` (line 173). -/
  | logStop
  /-- `await self.server.stop(grace=...)` (line 174). -/
  | stopServer (grace : PyGrace)
deriving DecidableEq

/-- The external `grpc.aio.Server`, at its boundary: the interceptor chain
it was created with, the addresses bound to it, the service handlers added
to it (in order, duplicates kept, as `add_generic_rpc_handlers` appends),
the name sets passed to reflection enablement, whether it has started, and
the identifiers of in-flight calls. -/
structure AioServer where
  interceptors : List AuthInterceptor
  boundAddrs : List String
  handlers : List String
  reflectionNames : List (List String)
  started : Bool
  inflight : List Nat
deriving DecidableEq

/-- Environment outside the process: whether the configured address is
already bound by someone else when the host tries to bind it. -/
structure Env where
  addrInUse : Bool
deriving DecidableEq

/-- `aio.server(ThreadPoolExecutor(max_workers=10), interceptors=ics)`:
a fresh server with the given interceptor chain, nothing bound, no
handlers, not started. -/
def aioNewServer (ics : List AuthInterceptor) : AioServer :=
  { interceptors := ics, boundAddrs := [], handlers := [],
    reflectionNames := [], started := false, inflight := [] }

/-- External `grpc.aio.Server.add_insecure_port`: binds the address, and
raises `RuntimeError` when the binding fails (the library validates the
binding result and refuses to return an unusable port). -/
def add_insecure_port (env : Env) (addr : String) (srv : AioServer) :
    Except String AioServer :=
  if env.addrInUse then
    .error ("Failed to bind to address " ++ addr)
  else
    .ok { srv with boundAddrs := srv.boundAddrs ++ [addr] }

/-- External `reflection.enable_server_reflection names srv`: records the
advertised name set on the server. -/
def enable_server_reflection (names : List String) (srv : AioServer) :
    AioServer :=
  { srv with reflectionNames := srv.reflectionNames ++ [names] }

/-- The tuple `SERVICE_NAMES` built in `Server.__init__`
(manager.py lines 122-130). -/
def SERVICE_NAMES : List String :=
  [orderServiceFullName, echoServiceFullName, healthServiceFullName,
   checkServiceFullName, reflectionServiceName]

/-- A `Server` instance.  `objId` tags the allocation (Python object
identity); `inited` models `hasattr(self, "initialized")`; the remaining
fields are the attributes `__init__` assigns, absent (`none`) until set. -/
structure ServerObj where
  objId : Nat
  inited : Bool
  SERVER_ADDRESS : Option String
  server : Option AioServer
deriving DecidableEq

/-- Process-wide state: the class attribute `Server._instance` and a
counter of allocations performed so far (fresh object identities). -/
structure ProcState where
  inst : Option ServerObj
  allocCount : Nat
deriving DecidableEq

/-- A process in which no `Server` has been constructed yet. -/
def ProcState.empty : ProcState := { inst := none, allocCount := 0 }

/-- `Server.__init__` (manager.py lines 71-134).  When the object lacks
the `initialized` attribute the body runs: tracing setup, assignment of
`SERVER_ADDRESS`, creation of the `aio` server with the interceptor chain
`[AuthInterceptor(settings.SECRET_KEY)]`, port binding, reflection
enablement over `SERVICE_NAMES`, and finally `self.initialized = True`.
Returns the (possibly partially mutated) object, the events emitted, and
the error if one was raised. -/
def Server.init (env : Env) (st : Settings) (self : ServerObj) :
    ServerObj × List Event × Option String :=
  if self.inited then (self, [], none)
  else
    let addr := serverAddress st
    let srv0 := aioNewServer [⟨st.SECRET_KEY⟩]
    let self1 := { self with SERVER_ADDRESS := some addr, server := some srv0 }
    match add_insecure_port env addr srv0 with
    | .error e => (self1, [.tracingSetup, .createServer], some e)
    | .ok srv1 =>
        let srv2 := enable_server_reflection SERVICE_NAMES srv1
        ({ self1 with server := some srv2, inited := true },
         [.tracingSetup, .createServer, .bindPort addr,
          .enableReflection SERVICE_NAMES],
         none)

/-- `Server()`: `__new__` (store a fresh object in `_instance` unless one
is already there, manager.py lines 61-69) followed by `__init__`.  Returns
the new process state, the returned object, the emitted events, and the
error `__init__` raised, if any.  Mutations made by `__init__` before an
error are visible through `_instance`, as in Python. -/
def Server.construct (env : Env) (st : Settings) (p : ProcState) :
    ProcState × ServerObj × List Event × Option String :=
  let alloc :=
    match p.inst with
    | some o => (o, p)
    | none =>
        let o : ServerObj :=
          { objId := p.allocCount, inited := false,
            SERVER_ADDRESS := none, server := none }
        (o, { p with inst := some o, allocCount := p.allocCount + 1 })
  let r := Server.init env st alloc.1
  ({ alloc.2 with inst := some r.1 }, r.1, r.2.1, r.2.2)

/-- The service full names `Server.register` binds, in source order
(manager.py lines 142-151): OrderService, EchoService, Health,
CheckStatusOrderService. -/
def registrationList : List String :=
  [orderServiceFullName, echoServiceFullName, healthServiceFullName,
   checkServiceFullName]

/-- Effect of `Server.register` on the underlying `aio` server: each
`add_XServicer_to_server` call appends its service's handler; nothing
deduplicates. -/
def registerServices (srv : AioServer) : AioServer × List Event :=
  ({ srv with handlers := srv.handlers ++ registrationList },
   registrationList.map Event.addService)

/-- `Server.register` (manager.py lines 136-151). -/
def Server.register (self : ServerObj) : ServerObj × List Event :=
  match self.server with
  | some srv =>
      let r := registerServices srv
      ({ self with server := some r.1 }, r.2)
  | none => (self, [])

/-- The set of service full names dispatchable on the host: duplicate
handler entries do not enlarge it (dispatch picks the first match). -/
def Server.dispatchable (self : ServerObj) : Finset String :=
  match self.server with
  | some srv => srv.handlers.toFinset
  | none => ∅

/-- The raw handler binding list of the host's server. -/
def Server.handlersOf (self : ServerObj) : List String :=
  match self.server with
  | some srv => srv.handlers
  | none => []

/-- `Server.run` (manager.py lines 153-164): ensure the `Order` table
exists, call `register`, start the server, log the bound address, then
wait for termination. -/
def Server.run (self : ServerObj) : ServerObj × List Event :=
  match self.SERVER_ADDRESS with
  | some addr =>
      let r := Server.register self
      match r.1.server with
      | some srv =>
          ({ r.1 with server := some { srv with started := true } },
           [Event.ensureStore] ++ r.2
             ++ [Event.startListener, Event.logAddress addr,
                 Event.waitForTermination])
      | none => (r.1, [Event.ensureStore] ++ r.2)
  | none => (self, [Event.ensureStore])

/-- External `grpc.aio.Server.stop grace`: the server stops servicing new
RPCs; RPCs still active when the grace period elapses are aborted, so with
a zero-length grace period every in-flight call is aborted (with a
positive one, calls may drain first — abstracted here as draining).
Returns the stopped server and the identifiers of the aborted calls. -/
def AioServer.stopWith (srv : AioServer) (g : PyGrace) :
    AioServer × List Nat :=
  ({ srv with started := false, inflight := [] },
   if g.periodSeconds = 0 then srv.inflight else [])

/-- `Server.stop` (manager.py lines 166-174): log, then
`await self.server.stop(grace=False)`.  Returns the new object, the
events, and the aborted in-flight calls. -/
def Server.stop (self : ServerObj) : ServerObj × List Event × List Nat :=
  match self.server with
  | some srv =>
      let r := srv.stopWith PyGrace.falseVal
      ({ self with server := some r.1 },
       [Event.logStop, Event.stopServer PyGrace.falseVal], r.2)
  | none => (self, [Event.logStop], [])

/-- `Server()` constructed `n` times in sequence in one process: the final
process state, the concatenated event trace, and the list of objects the
`n` constructions returned. -/
def constructTimes (env : Env) (st : Settings) :
    Nat → ProcState → ProcState × List Event × List ServerObj
  | 0, p => (p, [], [])
  | n + 1, p =>
      let c := Server.construct env st p
      let rest := constructTimes env st n c.1
      (rest.1, c.2.2.1 ++ rest.2.1, c.2.1 :: rest.2.2)

/-- The event trace of one successful run of `Server.__init__`. -/
def initEventTrace (st : Settings) : List Event :=
  [.tracingSetup, .createServer, .bindPort (serverAddress st),
   .enableReflection SERVICE_NAMES]

/-- The fully initialized singleton object a successful first
construction produces. -/
def initializedObj (st : Settings) : ServerObj :=
  { objId := 0, inited := true,
    SERVER_ADDRESS := some (serverAddress st),
    server := some
      { interceptors := [⟨st.SECRET_KEY⟩],
        boundAddrs := [serverAddress st], handlers := [],
        reflectionNames := [SERVICE_NAMES], started := false,
        inflight := [] } }

/-- The startup scenario `main.py` drives: construct the singleton, then
`run` it; the concatenated event trace. -/
def scenarioTrace (env : Env) (st : Settings) : List Event :=
  let c := Server.construct env st ProcState.empty
  c.2.2.1 ++ (Server.run c.2.1).2

def isAddService : Event → Bool
  | .addService _ => true
  | _ => false

def isEnableReflection : Event → Bool
  | .enableReflection _ => true
  | _ => false

def isStartListener : Event → Bool
  | .startListener => true
  | _ => false

def isBindPort : Event → Bool
  | .bindPort _ => true
  | _ => false

/-- Every service registration is bound strictly before reflection is
enabled: no `addService` event at or after the first `enableReflection`. -/
def regsAllBeforeReflection (tr : List Event) : Bool :=
  ((tr.dropWhile fun e => ! isEnableReflection e).filter isAddService).isEmpty

/-- Every service registration is bound strictly after reflection is
enabled: no `addService` before the first `enableReflection`. -/
def regsAllAfterReflection (tr : List Event) : Bool :=
  ((tr.takeWhile fun e => ! isEnableReflection e).filter isAddService).isEmpty

/-- Every `enableReflection` event precedes the first `startListener`. -/
def reflectionBeforeStart (tr : List Event) : Bool :=
  ((tr.takeWhile fun e => ! isStartListener e).countP isEnableReflection)
    = tr.countP isEnableReflection

/-- Every `addService` event precedes the first `startListener`. -/
def regsBeforeStart (tr : List Event) : Bool :=
  ((tr.takeWhile fun e => ! isStartListener e).countP isAddService)
    = tr.countP isAddService

/-- An environment whose configured address is free. -/
def envOk : Env := { addrInUse := false }

/-- An environment whose configured address is already in use. -/
def envBusy : Env := { addrInUse := true }

/-- Concrete settings used to instantiate theorems with hypotheses. -/
def stTest : Settings :=
  { GRPC_HOST_LOCAL := "127.0.0.1", GRPC_PORT := "50051",
    SECRET_KEY := "s3cr3t" }

/-- The concrete host object obtained by one successful construction
under `stTest`. -/
def objTest : ServerObj :=
  (Server.construct envOk stTest ProcState.empty).2.1

/-- The concrete underlying `aio` server of `objTest`. -/
def srvTest : AioServer :=
  { interceptors := [⟨"s3cr3t"⟩],
    boundAddrs := ["127.0.0.1:50051"], handlers := [],
    reflectionNames := [SERVICE_NAMES], started := false, inflight := [] }

/-- The full names `register` binds, except the health service: the
registered business services. -/
def registeredBusinessNames : List String :=
  registrationList.filter fun n => n != healthServiceFullName

/-- C1, counterexample: after calling `register` twice on the constructed
host, the handler binding list contains `OrderService`'s full name twice —
the second call does duplicate bindings, so `register` is not idempotent
as claimed. -/
theorem register_twice_duplicates :
    2 ≤ (Server.handlersOf
          (Server.register (Server.register objTest).1).1).count
        orderServiceFullName := by
  decide

/-- C1 (amended): calling `register` twice yields the same dispatchable
set of service full names as calling it once (dispatch is by name), but it
does not leave the bindings unduplicated: the handler list grows by the
whole registration list again, so every service's binding is duplicated. -/
theorem register_twice_same_dispatchable_but_duplicated
    (self : ServerObj) (srv : AioServer) (h : self.server = some srv) :
    Server.dispatchable (Server.register (Server.register self).1).1
      = Server.dispatchable (Server.register self).1
    ∧ Server.handlersOf (Server.register (Server.register self).1).1
        = Server.handlersOf (Server.register self).1 ++ registrationList := by
  constructor
  · simp [Server.register, registerServices, h, Server.dispatchable,
      List.toFinset_append, Finset.union_assoc]
  · simp [Server.register, registerServices, h, Server.handlersOf]

/-- Witness for C1's amended theorem at the constructed host. -/
theorem register_twice_same_dispatchable_but_duplicated_witness :
    Server.dispatchable (Server.register (Server.register objTest).1).1
      = Server.dispatchable (Server.register objTest).1
    ∧ Server.handlersOf (Server.register (Server.register objTest).1).1
        = Server.handlersOf (Server.register objTest).1
            ++ registrationList :=
  register_twice_same_dispatchable_but_duplicated objTest srvTest
    (by decide)

/-- C2, counterexample: in the startup scenario (construct, then `run`),
reflection is enabled exactly once, but NOT after all service
registrations are bound: some `addService` events occur after the
`enableReflection` event, because `__init__` enables reflection while
`register` only runs later inside `run`. -/
theorem reflection_enabled_before_registrations :
    (scenarioTrace envOk stTest).countP isEnableReflection = 1
    ∧ regsAllBeforeReflection (scenarioTrace envOk stTest) = false := by
  decide

/-- C2 (amended): reflection is enabled exactly once and before the
listener starts accepting traffic, but it is enabled before — not after —
the service registrations are bound; the registrations are bound after
reflection enablement and still before the listener starts. -/
theorem reflection_once_before_start_but_before_registrations
    (st : Settings) :
    (scenarioTrace envOk st).countP isEnableReflection = 1
    ∧ reflectionBeforeStart (scenarioTrace envOk st) = true
    ∧ regsAllBeforeReflection (scenarioTrace envOk st) = false
    ∧ regsAllAfterReflection (scenarioTrace envOk st) = true
    ∧ regsBeforeStart (scenarioTrace envOk st) = true := by
  exact ⟨rfl, rfl, rfl, rfl, rfl⟩

/-- C4: the name tuple passed to `enable_server_reflection` is exactly the
union of the full names of the registered business services, the health
service's full name, and the reflection service's own name. -/
theorem reflection_name_set_exact :
    SERVICE_NAMES.toFinset
      = registeredBusinessNames.toFinset
          ∪ {healthServiceFullName} ∪ {reflectionServiceName} := by
  decide

/-- C5: for every environment and settings, the server created by
construction carries the interceptor chain
`[AuthInterceptor(settings.SECRET_KEY)]` — `AuthInterceptor`, built with
the configured secret, is its first and only element, so every inbound
RPC traverses it before any handler. -/
theorem auth_interceptor_first_and_only (env : Env) (st : Settings) :
    ((Server.construct env st ProcState.empty).2.1.server).map
        AioServer.interceptors
      = some [AuthInterceptor.mk st.SECRET_KEY] := by
  cases env with
  | mk b => cases b <;> rfl

/-- Once `_instance` holds an initialized object, further constructions
return it unchanged, emit no events, and allocate nothing. -/
theorem constructTimes_after_init (env : Env) (st : Settings)
    (o : ServerObj) (ho : o.inited = true) :
    ∀ (n : Nat) (p : ProcState), p.inst = some o →
      constructTimes env st n p = (p, [], List.replicate n o) := by
  intro n
  induction n with
  | zero => intro p hp; rfl
  | succ n ih =>
      intro p hp
      obtain ⟨pi, pc⟩ := p
      simp only [ProcState.inst] at hp
      subst hp
      have hc : Server.construct env st ⟨some o, pc⟩ = (⟨some o, pc⟩, o, [], none) := by
        simp [Server.construct, Server.init, ho]
      have hrest := ih ⟨some o, pc⟩ rfl
      simp [constructTimes, hc, hrest, List.replicate_succ]

/-- C3: constructing `Server()` any positive number of times in one
process returns the same fully initialized object every time, runs the
initialization body (tracing setup, server creation, port binding,
reflection enablement) exactly once in total, allocates exactly one
object, and binds the configured address exactly once. -/
theorem server_singleton (st : Settings) (n : Nat) :
    (constructTimes envOk st (n + 1) ProcState.empty).2.2
      = List.replicate (n + 1) (initializedObj st)
    ∧ (constructTimes envOk st (n + 1) ProcState.empty).2.1
        = initEventTrace st
    ∧ (constructTimes envOk st (n + 1) ProcState.empty).1.allocCount = 1
    ∧ ((constructTimes envOk st (n + 1) ProcState.empty).2.1).countP
        isBindPort = 1 := by
  have h1 : Server.construct envOk st ProcState.empty
      = ({ inst := some (initializedObj st), allocCount := 1 },
         initializedObj st, initEventTrace st, none) := rfl
  have h2 := constructTimes_after_init envOk st (initializedObj st) rfl n
      { inst := some (initializedObj st), allocCount := 1 } rfl
  refine ⟨?_, ?_, ?_, ?_⟩
  · simp [constructTimes, h1, h2, List.replicate_succ]
  · simp [constructTimes, h1, h2]
  · simp [constructTimes, h1, h2]
  · have htr : (constructTimes envOk st (n + 1) ProcState.empty).2.1
        = initEventTrace st := by simp [constructTimes, h1, h2]
    rw [htr]; rfl

/-- C6: on an object with its address and server attributes set (as after
construction), `run` emits exactly: ensure the backing store, the four
service registrations, listener start, the bound-address log line, and the
suspension until termination — in that order. -/
theorem run_event_order (addr : String) (self : ServerObj)
    (srv : AioServer) (h1 : self.SERVER_ADDRESS = some addr)
    (h2 : self.server = some srv) :
    (Server.run self).2
      = [Event.ensureStore,
         Event.addService orderServiceFullName,
         Event.addService echoServiceFullName,
         Event.addService healthServiceFullName,
         Event.addService checkServiceFullName,
         Event.startListener, Event.logAddress addr,
         Event.waitForTermination] := by
  simp [Server.run, h1, h2, Server.register, registerServices,
    registrationList]

/-- Witness for C6 at the constructed host. -/
theorem run_event_order_witness :
    (Server.run objTest).2
      = [Event.ensureStore,
         Event.addService orderServiceFullName,
         Event.addService echoServiceFullName,
         Event.addService healthServiceFullName,
         Event.addService checkServiceFullName,
         Event.startListener, Event.logAddress (serverAddress stTest),
         Event.waitForTermination] :=
  run_event_order (serverAddress stTest) objTest srvTest (by decide)
    (by decide)

/-- C7: `stop` passes the grace argument `False` — a zero-length grace
period — to the underlying server's stop primitive, so every in-flight
call is aborted (none drained) and none remain afterwards. -/
theorem stop_aborts_inflight_no_grace (self : ServerObj)
    (srv : AioServer) (h : self.server = some srv) :
    (Server.stop self).2.1
      = [Event.logStop, Event.stopServer PyGrace.falseVal]
    ∧ PyGrace.periodSeconds PyGrace.falseVal = 0
    ∧ (Server.stop self).2.2 = srv.inflight
    ∧ ((Server.stop self).1.server).map AioServer.inflight = some [] := by
  simp [Server.stop, h, AioServer.stopWith, PyGrace.periodSeconds]

/-- Witness for C7 at the constructed host. -/
theorem stop_aborts_inflight_no_grace_witness :
    (Server.stop objTest).2.1
      = [Event.logStop, Event.stopServer PyGrace.falseVal]
    ∧ PyGrace.periodSeconds PyGrace.falseVal = 0
    ∧ (Server.stop objTest).2.2 = srvTest.inflight
    ∧ ((Server.stop objTest).1.server).map AioServer.inflight
        = some [] :=
  stop_aborts_inflight_no_grace objTest srvTest (by decide)

/-- C8: `stop` raises nothing (it is total in the model, matching the
`grpc.aio` contract that stopping an unstarted or stopped server is
safe); on a host that never ran (server not started, no in-flight calls)
it leaves the host's state unchanged, and calling it twice in a row gives
the same state as calling it once. -/
theorem stop_noop_and_idempotent (self : ServerObj) (srv : AioServer)
    (h : self.server = some srv) :
    ((srv.started = false ∧ srv.inflight = [])
      → (Server.stop self).1 = self)
    ∧ (Server.stop (Server.stop self).1).1 = (Server.stop self).1 := by
  obtain ⟨oid, oin, oaddr, oserver⟩ := self
  simp only [ServerObj.server] at h
  subst h
  constructor
  · rintro ⟨hs, hi⟩
    obtain ⟨ics, ba, hd, rn, s, fl⟩ := srv
    simp only [AioServer.started] at hs
    simp only [AioServer.inflight] at hi
    subst hs; subst hi
    rfl
  · rfl

/-- Witness for C8 at the constructed (never-run) host. -/
theorem stop_noop_and_idempotent_witness :
    ((srvTest.started = false ∧ srvTest.inflight = [])
      → (Server.stop objTest).1 = objTest)
    ∧ (Server.stop (Server.stop objTest).1).1
        = (Server.stop objTest).1 :=
  stop_noop_and_idempotent objTest srvTest (by decide)

/-- C9: when the configured address is already in use, construction
raises the binding error (startup aborts), the initialization flag is
never set, and the host is left with no bound address — it does not
continue as if bound. -/
theorem addr_in_use_is_fatal (env : Env) (st : Settings) (p : ProcState)
    (hp : p.inst = none) (h : env.addrInUse = true) :
    (Server.construct env st p).2.2.2
      = some ("Failed to bind to address " ++ serverAddress st)
    ∧ (Server.construct env st p).2.1.inited = false
    ∧ ((Server.construct env st p).2.1.server).map AioServer.boundAddrs
        = some [] := by
  simp [Server.construct, hp, Server.init, add_insecure_port, h,
    aioNewServer]

/-- Witness for C9 at concrete settings with the address occupied. -/
theorem addr_in_use_is_fatal_witness :
    (Server.construct envBusy stTest ProcState.empty).2.2.2
      = some ("Failed to bind to address " ++ serverAddress stTest)
    ∧ (Server.construct envBusy stTest ProcState.empty).2.1.inited
        = false
    ∧ ((Server.construct envBusy stTest ProcState.empty).2.1.server).map
        AioServer.boundAddrs = some [] :=
  addr_in_use_is_fatal envBusy stTest ProcState.empty rfl rfl

/-- C10: if the first construction's `__init__` raises (here: binding
fails) after `_instance` is stored but before the `initialized` flag is
assigned, the partially initialized object stays in `_instance`; a second
construction (here: with the address now free) returns the very same
object (same identity, no new allocation), re-runs the entire
initialization body — its event trace is the full `__init__` trace,
tracing setup included — and completes, setting the flag. -/
theorem failed_init_reruns_on_same_instance (st : Settings)
    (env1 env2 : Env) (h1 : env1.addrInUse = true)
    (h2 : env2.addrInUse = false) :
    ((Server.construct env1 st ProcState.empty).2.2.2).isSome = true
    ∧ (Server.construct env1 st ProcState.empty).1.inst
        = some (Server.construct env1 st ProcState.empty).2.1
    ∧ (Server.construct env1 st ProcState.empty).2.1.inited = false
    ∧ (Server.construct env2 st
        (Server.construct env1 st ProcState.empty).1).2.1.objId
        = (Server.construct env1 st ProcState.empty).2.1.objId
    ∧ (Server.construct env2 st
        (Server.construct env1 st ProcState.empty).1).1.allocCount = 1
    ∧ (Server.construct env2 st
        (Server.construct env1 st ProcState.empty).1).2.2.1
        = initEventTrace st
    ∧ (Server.construct env2 st
        (Server.construct env1 st ProcState.empty).1).2.1.inited = true
    ∧ (Server.construct env2 st
        (Server.construct env1 st ProcState.empty).1).2.2.2 = none := by
  simp [Server.construct, Server.init, add_insecure_port, h1, h2,
    ProcState.empty, initEventTrace, aioNewServer,
    enable_server_reflection]

/-- Witness for C10 at concrete settings: address occupied at the first
construction, free at the second. -/
theorem failed_init_reruns_on_same_instance_witness :
    ((Server.construct envBusy stTest ProcState.empty).2.2.2).isSome
        = true
    ∧ (Server.construct envBusy stTest ProcState.empty).1.inst
        = some (Server.construct envBusy stTest ProcState.empty).2.1
    ∧ (Server.construct envBusy stTest ProcState.empty).2.1.inited
        = false
    ∧ (Server.construct envOk stTest
        (Server.construct envBusy stTest ProcState.empty).1).2.1.objId
        = (Server.construct envBusy stTest ProcState.empty).2.1.objId
    ∧ (Server.construct envOk stTest
        (Server.construct envBusy stTest ProcState.empty).1).1.allocCount
        = 1
    ∧ (Server.construct envOk stTest
        (Server.construct envBusy stTest ProcState.empty).1).2.2.1
        = initEventTrace stTest
    ∧ (Server.construct envOk stTest
        (Server.construct envBusy stTest ProcState.empty).1).2.1.inited
        = true
    ∧ (Server.construct envOk stTest
        (Server.construct envBusy stTest ProcState.empty).1).2.2.2
        = none :=
  failed_init_reruns_on_same_instance stTest envBusy envOk rfl rfl

end GrpcManager
